import Mathlib

/-!
Shallow embedding of the Settlement Offer Negotiation & Approval Engine of the
debt-collection portal. The repository concatenates three variants of the
portal; the `Portal` namespace embeds the third variant (the one with the
send-offer page, the customer-response page and the supervisor review panel
with a rejection modal), `PortalV1` embeds the first variant's supervisor
reject button (which takes no comment), and `Enhanced` embeds the second
variant's supervisor panel (whose approve button transitions directly to
Sent) together with its larger status enumeration.

Dates are modelled as integers (days); monetary amounts and percentages as
rationals. Streamlit session state is modelled as an explicit record of the
lists the handlers read and write; each submit handler becomes a function
from the session state (plus the form inputs and the current time) to the
next session state together with the validation errors it displays.
-/

namespace Portal

inductive LoanType
  | personal
  | mortgage
  | business
  | creditCard
  deriving DecidableEq, Repr

inductive WorkflowStatus
  | settlement
  | legal
  | bankruptcy
  deriving DecidableEq, Repr

/-- The offer status enumeration of the first and third portal variants:
Draft, Sent, Accepted, Rejected, Counter Offer, Pending Approval,
Rejected by Supervisor. -/
inductive OfferStatus
  | draft
  | sent
  | accepted
  | rejected
  | counterOffer
  | pendingApproval
  | rejectedBySupervisor
  deriving DecidableEq, Repr

inductive CommunicationChannel
  | sms
  | email
  | phone
  deriving DecidableEq, Repr

structure Loan where
  loan_id : String
  customer_id : String
  loan_type : LoanType
  principal_amount : ℚ
  outstanding_principal : ℚ
  interest_amount : ℚ
  penalties : ℚ
  days_overdue : ℕ
  current_balance : ℚ
  workflow_status : WorkflowStatus
  is_secured : Bool
  deriving DecidableEq, Repr

structure Offer where
  offer_id : String
  loan_id : String
  agent_id : String
  settlement_percentage : ℚ
  settlement_amount : ℚ
  due_date : Int
  status : OfferStatus
  justification_notes : String
  created_date : Int
  sent_date : Option Int := none
  response_date : Option Int := none
  supervisor_comments : String := ""
  deriving DecidableEq, Repr

structure Communication where
  communication_id : String
  loan_id : String
  offer_id : String
  channel : CommunicationChannel
  message_content : String
  sent_date : Int
  delivery_status : String
  deriving DecidableEq, Repr

structure CustomerResponse where
  response_id : String
  offer_id : String
  response_type : String
  reason : String
  counter_percentage : Option ℚ := none
  counter_amount : Option ℚ := none
  counter_due_date : Option Int := none
  agent_notes : String := ""
  response_date : Option Int := none
  deriving DecidableEq, Repr

/-- The slices of `st.session_state` the settlement engine reads and writes:
`offers`, `communications`, `responses`, plus the read-only `loans`. -/
structure SessionState where
  loans : List Loan
  offers : List Offer
  communications : List Communication
  responses : List CustomerResponse
  deriving DecidableEq, Repr

/-- `get_loan_by_id`: first loan with the given id, if any. -/
def get_loan_by_id (s : SessionState) (loanId : String) : Option Loan :=
  s.loans.find? (fun l => l.loan_id == loanId)

/-- `get_offers_by_loan_id`: all offers of a loan, in list (creation) order. -/
def get_offers_by_loan_id (s : SessionState) (loanId : String) : List Offer :=
  s.offers.filter (fun o => o.loan_id == loanId)

/-- `next((o for o in offers if o.offer_id == ...), None)`. -/
def find_offer (s : SessionState) (offerId : String) : Option Offer :=
  s.offers.find? (fun o => o.offer_id == offerId)

/-- In-place mutation of the first object matching a predicate, as Python's
`next(...)` followed by attribute assignment mutates one list element. -/
def updateFirstBy {α : Type} (p : α → Bool) (f : α → α) : List α → List α
  | [] => []
  | a :: rest => if p a then f a :: rest else a :: updateFirstBy p f rest

/-- Python `str.strip()`: remove leading and trailing whitespace. -/
def pyStrip (s : String) : String :=
  String.mk
    (((s.data.dropWhile Char.isWhitespace).reverse.dropWhile
      Char.isWhitespace).reverse)

/-- Python `f"{n:03d}"`: decimal rendering left-padded with zeros to width 3. -/
def pad3 (n : Nat) : String :=
  if n < 10 then "00" ++ toString n
  else if n < 100 then "0" ++ toString n
  else toString n

/-- `min_percentage = 40 if loan.is_secured else 35`. -/
def min_percentage (loan : Loan) : ℚ :=
  if loan.is_secured then 40 else 35

/-- `max_percentage = 70 if loan.is_secured else 65`. -/
def max_percentage (loan : Loan) : ℚ :=
  if loan.is_secured then 70 else 65

/-- `is_within_policy = min_percentage <= settlement_percentage <= max_percentage`. -/
def is_within_policy (loan : Loan) (pct : ℚ) : Bool :=
  decide (min_percentage loan ≤ pct) && decide (pct ≤ max_percentage loan)

/-- The two validation error messages of the create-offer form. -/
inductive CreateError
  | missingJustification
  | dueDateTooFar
  deriving DecidableEq, Repr

/-- Errors collected by the create-offer submit handler, in source order. -/
def create_offer_errors (loan : Loan) (pct : ℚ) (due_date today : Int)
    (justification_notes : String) : List CreateError :=
  (if !is_within_policy loan pct && (pyStrip justification_notes).isEmpty then
    [CreateError.missingJustification] else [])
  ++ (if due_date > today + 90 then [CreateError.dueDateTooFar] else [])

/-- Result of the create-offer submit handler: the next session state, the
offer appended on success, and the validation errors displayed on failure. -/
structure CreateResult where
  state : SessionState
  created : Option Offer
  errors : List CreateError
  deriving Repr

/-- Submit handler of `render_create_offer` (identical in the first and third
portal variants): validates policy/justification and the 90-day due-date
horizon, then appends a new offer whose status is `PENDING_APPROVAL` when the
percentage is outside policy and `DRAFT` otherwise. -/
def render_create_offer (s : SessionState) (loan : Loan) (agentId : String)
    (pct : ℚ) (due_date : Int) (justification_notes : String) (today : Int) :
    CreateResult :=
  let settlement_amount := loan.current_balance * (pct / 100)
  let errors := create_offer_errors loan pct due_date today justification_notes
  if errors.isEmpty then
    let new_offer : Offer :=
      { offer_id := "OFFER_" ++ pad3 (s.offers.length + 1)
        loan_id := loan.loan_id
        agent_id := agentId
        settlement_percentage := pct
        settlement_amount := settlement_amount
        due_date := due_date
        status := if !is_within_policy loan pct then OfferStatus.pendingApproval
                  else OfferStatus.draft
        justification_notes := justification_notes
        created_date := today }
    { state := { s with offers := s.offers ++ [new_offer] }
      created := some new_offer
      errors := [] }
  else
    { state := s, created := none, errors := errors }

/-- Failure modes of the send-offer page: the offer id is unknown, or the
page refuses to show the send form because the offer is pending approval. -/
inductive SendError
  | offerNotFound
  | pendingApprovalBlock
  deriving DecidableEq, Repr

structure SendResult where
  state : SessionState
  error : Option SendError
  deriving Repr

/-- `render_send_offer` of the third portal variant: looks the offer up,
refuses only when its status is `PENDING_APPROVAL`, and otherwise appends a
`Communication` record with delivery status `"Delivered"` and mutates the
offer to `SENT`, setting `sent_date`. -/
def render_send_offer (s : SessionState) (offerId : String)
    (channel : CommunicationChannel) (message_content : String) (now : Int) :
    SendResult :=
  match find_offer s offerId with
  | none => { state := s, error := some SendError.offerNotFound }
  | some offer =>
    if offer.status = OfferStatus.pendingApproval then
      { state := s, error := some SendError.pendingApprovalBlock }
    else
      let communication : Communication :=
        { communication_id := "COMM_" ++ pad3 (s.communications.length + 1)
          loan_id := offer.loan_id
          offer_id := offer.offer_id
          channel := channel
          message_content := message_content
          sent_date := now
          delivery_status := "Delivered" }
      { state :=
          { s with
            communications := s.communications ++ [communication]
            offers := updateFirstBy (fun o => o.offer_id == offerId)
              (fun o => { o with status := OfferStatus.sent, sent_date := some now })
              s.offers }
        error := none }

/-- The three radio options of the customer-response form. -/
inductive ResponseType
  | accepted
  | rejected
  | counter
  deriving DecidableEq, Repr

/-- The literal strings of the response-type radio button. -/
def response_type_str : ResponseType → String
  | ResponseType.accepted => "Accepted"
  | ResponseType.rejected => "Rejected"
  | ResponseType.counter => "Counter-offer"

/-- Offer status written by each customer-response branch. -/
def response_status : ResponseType → OfferStatus
  | ResponseType.accepted => OfferStatus.accepted
  | ResponseType.rejected => OfferStatus.rejected
  | ResponseType.counter => OfferStatus.counterOffer

inductive RespondError
  | offerNotFound
  | loanNotFound
  deriving DecidableEq, Repr

structure RespondResult where
  state : SessionState
  error : Option RespondError
  deriving Repr

/-- Submit handler of `render_customer_response` (third portal variant):
appends a `CustomerResponse` record, then per response type mutates the
offer's status and `response_date`; a counter response additionally appends a
brand-new offer carrying the counter terms, always with status `DRAFT`, whose
justification notes mention the original percentage (the `Offer` record has
no parent pointer). `loanNotFound` models the `AttributeError` the Python
code would raise when `get_loan_by_id` returns `None`. -/
def render_customer_response (s : SessionState) (offerId : String)
    (rtype : ResponseType) (rejection_reason : String)
    (counter_percentage : ℚ) (counter_due_date : Int)
    (agent_notes : String) (agentId : String) (now : Int) :
    RespondResult :=
  match find_offer s offerId with
  | none => { state := s, error := some RespondError.offerNotFound }
  | some offer =>
    match get_loan_by_id s offer.loan_id with
    | none => { state := s, error := some RespondError.loanNotFound }
    | some loan =>
      let counter_amount := loan.current_balance * (counter_percentage / 100)
      let response : CustomerResponse :=
        { response_id := "RESP_" ++ pad3 (s.responses.length + 1)
          offer_id := offer.offer_id
          response_type := response_type_str rtype
          reason := if rtype = ResponseType.rejected then rejection_reason else ""
          counter_percentage :=
            if rtype = ResponseType.counter then some counter_percentage else none
          counter_amount :=
            if rtype = ResponseType.counter then some counter_amount else none
          counter_due_date :=
            if rtype = ResponseType.counter then some counter_due_date else none
          agent_notes := agent_notes
          response_date := some now }
      let s1 := { s with responses := s.responses ++ [response] }
      let s2 := { s1 with
        offers := updateFirstBy (fun o => o.offer_id == offerId)
          (fun o => { o with status := response_status rtype
                             response_date := some now })
          s1.offers }
      match rtype with
      | ResponseType.accepted => { state := s2, error := none }
      | ResponseType.rejected => { state := s2, error := none }
      | ResponseType.counter =>
        let counter_offer : Offer :=
          { offer_id := "OFFER_" ++ pad3 (s2.offers.length + 1)
            loan_id := loan.loan_id
            agent_id := agentId
            settlement_percentage := counter_percentage
            settlement_amount := counter_amount
            due_date := counter_due_date
            status := OfferStatus.draft
            justification_notes :=
              "Counter-offer from customer. Original offer: "
                ++ toString offer.settlement_percentage ++ "%"
            created_date := now }
        { state := { s2 with offers := s2.offers ++ [counter_offer] }
          error := none }

/-- `pending_offers = [o for o in offers if o.status == PENDING_APPROVAL]`. -/
def pending_offers (s : SessionState) : List Offer :=
  s.offers.filter (fun o => decide (o.status = OfferStatus.pendingApproval))

/-- Approve button of `render_supervisor_review` (third variant): the button
exists only for offers in the pending-approval list; clicking it sets the
offer's status to `DRAFT` ("ready to be sent"). Issuing the action against an
offer not in the pending list is a no-op (the panel does not show it). -/
def render_supervisor_review_approve (s : SessionState) (offerId : String) :
    SessionState :=
  if (pending_offers s).any (fun o => o.offer_id == offerId) then
    { s with
      offers := updateFirstBy (fun o => o.offer_id == offerId)
        (fun o => { o with status := OfferStatus.draft }) s.offers }
  else s

inductive ReviewError
  | missingComment
  deriving DecidableEq, Repr

structure ReviewResult where
  state : SessionState
  error : Option ReviewError
  deriving Repr

/-- Confirm-rejection handler of the third variant's rejection modal: if the
comment is non-empty after stripping, the offer becomes
`REJECTED_BY_SUPERVISOR` with the comment recorded in
`supervisor_comments`; otherwise the handler displays "Comments are required
for rejection." and mutates nothing. -/
def render_supervisor_review_reject (s : SessionState) (offerId : String)
    (rejection_comments : String) : ReviewResult :=
  if (pending_offers s).any (fun o => o.offer_id == offerId) then
    if (pyStrip rejection_comments).isEmpty then
      { state := s, error := some ReviewError.missingComment }
    else
      { state :=
          { s with
            offers := updateFirstBy (fun o => o.offer_id == offerId)
              (fun o => { o with status := OfferStatus.rejectedBySupervisor
                                 supervisor_comments := rejection_comments })
              s.offers }
        error := none }
  else { state := s, error := none }

/-- Send-back handler of the third variant: back to `DRAFT` with the comment
recorded, no comment requirement. -/
def render_supervisor_review_send_back (s : SessionState) (offerId : String)
    (sendback_comments : String) : SessionState :=
  if (pending_offers s).any (fun o => o.offer_id == offerId) then
    { s with
      offers := updateFirstBy (fun o => o.offer_id == offerId)
        (fun o => { o with status := OfferStatus.draft
                           supervisor_comments := sendback_comments }) s.offers }
  else s

end Portal

namespace PortalV1

open Portal

/-- Reject button of the first portal variant's `render_supervisor_review`:
no comment input exists; the click immediately sets
`REJECTED_BY_SUPERVISOR` with a canned supervisor comment. -/
def render_supervisor_review_reject_v1 (s : SessionState) (offerId : String) :
    SessionState :=
  if (pending_offers s).any (fun o => o.offer_id == offerId) then
    { s with
      offers := updateFirstBy (fun o => o.offer_id == offerId)
        (fun o => { o with
          status := OfferStatus.rejectedBySupervisor
          supervisor_comments :=
            "Rejected by supervisor - outside policy guidelines" }) s.offers }
  else s

end PortalV1

namespace Enhanced

/-- The enhanced (second) portal variant's status enumeration: the only place
in the repository where `Expired` and `Cancelled` exist, and no handler ever
assigns either value. -/
inductive OfferStatus
  | draft
  | sent
  | accepted
  | rejected
  | counterOffer
  | pendingApproval
  | rejectedBySupervisor
  | expired
  | cancelled
  deriving DecidableEq, Repr

/-- The enhanced variant's offer record (extra `expiry_date` and
`payment_terms` fields). -/
structure Offer where
  offer_id : String
  loan_id : String
  agent_id : String
  settlement_percentage : ℚ
  settlement_amount : ℚ
  due_date : Int
  status : OfferStatus
  justification_notes : String
  created_date : Int
  sent_date : Option Int := none
  response_date : Option Int := none
  supervisor_comments : String := ""
  expiry_date : Option Int := none
  payment_terms : String := "Lump sum"
  deriving DecidableEq, Repr

/-- Approve button of the enhanced variant's `render_supervisor_panel`: shown
only for pending-approval offers; clicking it sets the status directly to
`SENT` and stamps `sent_date`. -/
def render_supervisor_panel_approve (offers : List Offer) (offerId : String)
    (now : Int) : List Offer :=
  if (offers.filter (fun o => decide (o.status = OfferStatus.pendingApproval))).any
      (fun o => o.offer_id == offerId) then
    Portal.updateFirstBy (fun o => o.offer_id == offerId)
      (fun o => { o with status := OfferStatus.sent, sent_date := some now })
      offers
  else offers

end Enhanced

/-! ## Generic lemmas about `updateFirstBy` -/

theorem updateFirstBy_map_eq {α β : Type} (g : α → β) (p : α → Bool) (f : α → α)
    (hg : ∀ a, g (f a) = g a) :
    ∀ l : List α, (Portal.updateFirstBy p f l).map g = l.map g := by
  intro l
  induction l with
  | nil => rfl
  | cons a rest ih =>
    by_cases h : p a = true
    · simp [Portal.updateFirstBy, h, hg]
    · simp [Portal.updateFirstBy, h, ih]

theorem updateFirstBy_idem {α : Type} (p : α → Bool) (f : α → α)
    (hf : ∀ a, f (f a) = f a) (hp : ∀ a, p (f a) = p a) :
    ∀ l : List α, Portal.updateFirstBy p f (Portal.updateFirstBy p f l)
      = Portal.updateFirstBy p f l := by
  intro l
  induction l with
  | nil => rfl
  | cons a rest ih =>
    by_cases h : p a = true
    · simp [Portal.updateFirstBy, h, hp, hf]
    · simp [Portal.updateFirstBy, h, ih]

theorem find?_updateFirstBy {α : Type} (p : α → Bool) (f : α → α)
    (hp : ∀ a, p a = true → p (f a) = true) :
    ∀ l : List α, l.find? p = none ∨
      (Portal.updateFirstBy p f l).find? p = (l.find? p).map f := by
  intro l
  induction l with
  | nil => left; rfl
  | cons a rest ih =>
    by_cases h : p a = true
    · right
      simp [Portal.updateFirstBy, h, List.find?, hp a h]
    · have hb : p a = false := by simpa using h
      rcases ih with ih | ih
      · left; simp [List.find?, hb, ih]
      · right; simp [Portal.updateFirstBy, hb, List.find?, ih]

/-! ## Concrete fixtures used by counterexamples and witnesses -/

/-- An unsecured loan with a round balance (policy band 35 - 65). -/
def sampleLoan : Portal.Loan :=
  { loan_id := "LOAN_001"
    customer_id := "CUST_001"
    loan_type := Portal.LoanType.personal
    principal_amount := 12000
    outstanding_principal := 9000
    interest_amount := 600
    penalties := 400
    days_overdue := 120
    current_balance := 10000
    workflow_status := Portal.WorkflowStatus.settlement
    is_secured := false }

/-- A secured loan (policy band 40 - 70). -/
def securedLoan : Portal.Loan :=
  { sampleLoan with loan_id := "LOAN_002", is_secured := true }

/-- A draft offer on the sample loan. -/
def draftOffer : Portal.Offer :=
  { offer_id := "OFFER_001"
    loan_id := "LOAN_001"
    agent_id := "agent_001"
    settlement_percentage := 50
    settlement_amount := 5000
    due_date := 45
    status := Portal.OfferStatus.draft
    justification_notes := ""
    created_date := 0 }

/-- A session holding one already-approved (draft) offer. -/
def draftState : Portal.SessionState :=
  { loans := [sampleLoan]
    offers := [draftOffer]
    communications := []
    responses := [] }

/-! ## C8 -/

/-- C8: the policy band is a deterministic function of the loan (it depends
only on the secured flag), and for every secured/unsecured pair of loans the
secured band is strictly higher at both endpoints (each band is 30 points
wide: 40-70 secured versus 35-65 unsecured). -/
theorem C8_policy_band_deterministic_and_higher :
    (∀ l1 l2 : Portal.Loan, l1.is_secured = l2.is_secured →
      Portal.min_percentage l1 = Portal.min_percentage l2
        ∧ Portal.max_percentage l1 = Portal.max_percentage l2)
    ∧ (∀ lsec luns : Portal.Loan,
      lsec.is_secured = true → luns.is_secured = false →
      Portal.min_percentage luns < Portal.min_percentage lsec
        ∧ Portal.max_percentage luns < Portal.max_percentage lsec) := by
  constructor
  · intro l1 l2 h
    simp [Portal.min_percentage, Portal.max_percentage, h]
  · intro lsec luns hs hu
    simp only [Portal.min_percentage, Portal.max_percentage, hs, hu,
      if_true, if_false]
    norm_num

/-- Witness for C8 at the two concrete fixture loans. -/
theorem C8_policy_band_witness :
    Portal.min_percentage sampleLoan < Portal.min_percentage securedLoan
      ∧ Portal.max_percentage sampleLoan < Portal.max_percentage securedLoan :=
  C8_policy_band_deterministic_and_higher.2 securedLoan sampleLoan rfl rfl

/-! ## C9 -/

theorem approve_fix (s : Portal.SessionState) (offerId : String)
    (h : Portal.updateFirstBy (fun o => o.offer_id == offerId)
      (fun o => { o with status := Portal.OfferStatus.draft }) s.offers
        = s.offers) :
    Portal.render_supervisor_review_approve s offerId = s := by
  unfold Portal.render_supervisor_review_approve
  rw [h]
  split <;> rfl

theorem approve_offers (s : Portal.SessionState) (offerId : String) :
    Portal.render_supervisor_review_approve s offerId = s ∨
    (Portal.render_supervisor_review_approve s offerId).offers =
      Portal.updateFirstBy (fun o => o.offer_id == offerId)
        (fun o => { o with status := Portal.OfferStatus.draft }) s.offers := by
  unfold Portal.render_supervisor_review_approve
  split
  · right; rfl
  · left; rfl

/-- C9: issuing SupervisorDecision(Approve) against an offer that is already
in Draft is a no-op returning the session unchanged (the supervisor panel
lists only PendingApproval offers, and the approve handler is total, so no
field is mutated, nothing is appended, and no error is raised); moreover the
approve action is idempotent on any session. -/
theorem C9_approve_idempotent :
    (∀ (s : Portal.SessionState) (offerId : String),
      (∀ o ∈ s.offers, o.offer_id = offerId →
        o.status = Portal.OfferStatus.draft) →
      Portal.render_supervisor_review_approve s offerId = s)
    ∧ (∀ (s : Portal.SessionState) (offerId : String),
      Portal.render_supervisor_review_approve
        (Portal.render_supervisor_review_approve s offerId) offerId
        = Portal.render_supervisor_review_approve s offerId) := by
  constructor
  · intro s offerId h
    unfold Portal.render_supervisor_review_approve
    rw [if_neg]
    intro hany
    rw [List.any_eq_true] at hany
    obtain ⟨o, ho, hid⟩ := hany
    rw [Portal.pending_offers, List.mem_filter] at ho
    obtain ⟨hmem, hstat⟩ := ho
    have hdraft := h o hmem (by simpa using hid)
    rw [hdraft] at hstat
    simp at hstat
  · intro s offerId
    rcases approve_offers s offerId with h | h
    · rw [h]
      exact h
    · refine approve_fix _ _ ?_
      rw [h]
      exact updateFirstBy_idem (fun o => o.offer_id == offerId)
        (fun o => { o with status := Portal.OfferStatus.draft })
        (fun a => rfl) (fun a => rfl) s.offers

/-- Witness for C9 on a concrete session whose only offer is already Draft. -/
theorem C9_approve_idempotent_witness :
    Portal.render_supervisor_review_approve draftState "OFFER_001" = draftState :=
  C9_approve_idempotent.1 draftState "OFFER_001" (by
    intro o ho hid
    simp only [draftState, List.mem_singleton] at ho
    rw [ho]
    rfl)

/-! ## C3 -/

/-- C3: creating an offer whose percentage is outside the policy band with
empty (whitespace-only) justification notes fails with the
missing-justification error, persists no offer and leaves the whole session
state - offers, communications, responses - untouched; outside the band with
non-empty justification (and an admissible due date) the created offer
starts in PendingApproval; within the band it starts in Draft. -/
theorem C3_create_offer_validation :
    ∀ (s : Portal.SessionState) (loan : Portal.Loan) (agentId : String)
      (pct : ℚ) (due_date today : Int) (notes : String),
    (Portal.is_within_policy loan pct = false →
      (Portal.pyStrip notes).isEmpty = true →
      (Portal.render_create_offer s loan agentId pct due_date notes today).created
          = none
      ∧ (Portal.render_create_offer s loan agentId pct due_date notes today).state
          = s
      ∧ Portal.CreateError.missingJustification ∈
          (Portal.render_create_offer s loan agentId pct due_date notes today).errors)
    ∧ (Portal.is_within_policy loan pct = false →
      (Portal.pyStrip notes).isEmpty = false →
      due_date ≤ today + 90 →
      ((Portal.render_create_offer s loan agentId pct due_date notes today).created).map
          Portal.Offer.status = some Portal.OfferStatus.pendingApproval)
    ∧ (Portal.is_within_policy loan pct = true →
      due_date ≤ today + 90 →
      ((Portal.render_create_offer s loan agentId pct due_date notes today).created).map
          Portal.Offer.status = some Portal.OfferStatus.draft) := by
  intro s loan agentId pct due_date today notes
  refine ⟨?_, ?_, ?_⟩
  · intro h1 h2
    simp [Portal.render_create_offer, Portal.create_offer_errors, h1, h2]
  · intro h1 h2 h3
    have hdue : ¬ (due_date > today + 90) := not_lt.mpr h3
    simp [Portal.render_create_offer, Portal.create_offer_errors, h1, h2, hdue]
  · intro h1 h3
    have hdue : ¬ (due_date > today + 90) := not_lt.mpr h3
    simp [Portal.render_create_offer, Portal.create_offer_errors, h1, hdue]

/-- Witness for C3: percentage 80 on the unsecured sample loan (band 35-65)
with empty notes is refused and changes nothing; with notes it lands in
PendingApproval; percentage 50 lands in Draft. -/
theorem C3_create_offer_validation_witness :
    ((Portal.render_create_offer draftState sampleLoan "agent_001" 80 45 "" 0).created
        = none
      ∧ (Portal.render_create_offer draftState sampleLoan "agent_001" 80 45 "" 0).state
        = draftState
      ∧ Portal.CreateError.missingJustification ∈
        (Portal.render_create_offer draftState sampleLoan "agent_001" 80 45 "" 0).errors)
    ∧ ((Portal.render_create_offer draftState sampleLoan "agent_001" 80 45
          "Customer hardship" 0).created).map Portal.Offer.status
        = some Portal.OfferStatus.pendingApproval
    ∧ ((Portal.render_create_offer draftState sampleLoan "agent_001" 50 45 "" 0).created).map
        Portal.Offer.status = some Portal.OfferStatus.draft :=
  ⟨(C3_create_offer_validation draftState sampleLoan "agent_001" 80 45 0 "").1
      (by decide) (by decide),
   (C3_create_offer_validation draftState sampleLoan "agent_001" 80 45 0
      "Customer hardship").2.1 (by decide) (by decide) (by decide),
   (C3_create_offer_validation draftState sampleLoan "agent_001" 50 45 0 "").2.2
      (by decide) (by decide)⟩

/-! ## C6 -/

theorem updateFirstBy_length {α : Type} (p : α → Bool) (f : α → α) :
    ∀ l : List α, (Portal.updateFirstBy p f l).length = l.length := by
  intro l
  induction l with
  | nil => rfl
  | cons a rest ih =>
    by_cases h : p a = true
    · simp [Portal.updateFirstBy, h]
    · simp [Portal.updateFirstBy, h, ih]

theorem take_length_append {α : Type} :
    ∀ A B : List α, (A ++ B).take A.length = A := by
  intro A B
  induction A with
  | nil => rfl
  | cons a rest ih => simp [List.take, ih]

theorem take_append_of_length {α : Type} (A B : List α) (n : Nat)
    (h : A.length = n) : (A ++ B).take n = A := by
  subst h
  exact take_length_append A B

theorem map_take_update {α β : Type} (g : α → β) (p : α → Bool) (f : α → α)
    (l : List α) (hg : ∀ a, g (f a) = g a) :
    ((Portal.updateFirstBy p f l).map g).take l.length = l.map g := by
  rw [updateFirstBy_map_eq g p f hg l]
  exact List.take_of_length_le (by simp)

theorem map_take_update_append {α β : Type} (g : α → β) (p : α → Bool)
    (f : α → α) (l : List α) (c : α) (hg : ∀ a, g (f a) = g a) :
    ((Portal.updateFirstBy p f l ++ [c]).map g).take l.length = l.map g := by
  rw [List.map_append, updateFirstBy_map_eq g p f hg l]
  exact take_append_of_length _ _ _ (by simp)

/-- The offer fields outside the status/comment/date lifecycle group:
identity, parties, settlement terms, due date, justification, creation
date. Every handler is shown to preserve this projection pointwise. -/
def fixed_fields (o : Portal.Offer) :
    String × String × String × ℚ × ℚ × Int × String × Int :=
  (o.offer_id, o.loan_id, o.agent_id, o.settlement_percentage,
   o.settlement_amount, o.due_date, o.justification_notes, o.created_date)

/-- C6: the settlement amount of a created offer equals the settlement
percentage over 100 times the loan balance at creation time, and every
handler of the engine - send, customer response, supervisor approve, reject
and send-back - leaves the settlement terms (and every other non-lifecycle
field captured by `fixed_fields`) of all pre-existing offers unchanged. -/
theorem C6_settlement_terms_locked :
    (∀ (s : Portal.SessionState) (loan : Portal.Loan) (agentId : String)
      (pct : ℚ) (due_date today : Int) (notes : String) (o : Portal.Offer),
      (Portal.render_create_offer s loan agentId pct due_date notes today).created
          = some o →
      o.settlement_amount = o.settlement_percentage / 100 * loan.current_balance
        ∧ o.settlement_percentage = pct)
    ∧ (∀ (s : Portal.SessionState) (oid m : String)
      (ch : Portal.CommunicationChannel) (now : Int),
      ((Portal.render_send_offer s oid ch m now).state.offers).map fixed_fields
        = s.offers.map fixed_fields)
    ∧ (∀ (s : Portal.SessionState) (oid reason anotes aid : String)
      (rt : Portal.ResponseType) (cpct : ℚ) (cdue now : Int),
      (((Portal.render_customer_response s oid rt reason cpct cdue anotes aid
          now).state.offers).map fixed_fields).take s.offers.length
        = s.offers.map fixed_fields)
    ∧ (∀ (s : Portal.SessionState) (oid : String),
      ((Portal.render_supervisor_review_approve s oid).offers).map fixed_fields
        = s.offers.map fixed_fields)
    ∧ (∀ (s : Portal.SessionState) (oid c : String),
      ((Portal.render_supervisor_review_reject s oid c).state.offers).map
          fixed_fields
        = s.offers.map fixed_fields)
    ∧ (∀ (s : Portal.SessionState) (oid c : String),
      ((Portal.render_supervisor_review_send_back s oid c).offers).map
          fixed_fields
        = s.offers.map fixed_fields) := by
  refine ⟨?_, ?_, ?_, ?_, ?_, ?_⟩
  · intro s loan agentId pct due_date today notes o h
    simp only [Portal.render_create_offer] at h
    split at h
    · simp only [Option.some.injEq] at h
      subst h
      constructor
      · show loan.current_balance * (pct / 100)
          = pct / 100 * loan.current_balance
        ring
      · rfl
    · simp at h
  · intro s oid m ch now
    unfold Portal.render_send_offer
    rcases hf : Portal.find_offer s oid with _ | offer
    · simp only [hf]
    · simp only [hf]
      split
      · rfl
      · dsimp only
        apply updateFirstBy_map_eq
        intro a
        rfl
  · intro s oid reason anotes aid rt cpct cdue now
    unfold Portal.render_customer_response
    rcases hf : Portal.find_offer s oid with _ | offer
    · simp only [hf]
      exact List.take_of_length_le (by simp)
    · simp only [hf]
      rcases hl : Portal.get_loan_by_id s offer.loan_id with _ | loan
      · simp only [hl]
        exact List.take_of_length_le (by simp)
      · simp only [hl]
        cases rt with
        | accepted =>
          dsimp only
          apply map_take_update
          intro a
          rfl
        | rejected =>
          dsimp only
          apply map_take_update
          intro a
          rfl
        | counter =>
          dsimp only
          apply map_take_update_append
          intro a
          rfl
  · intro s oid
    unfold Portal.render_supervisor_review_approve
    split
    · dsimp only
      apply updateFirstBy_map_eq
      intro a
      rfl
    · rfl
  · intro s oid c
    unfold Portal.render_supervisor_review_reject
    split
    · split
      · rfl
      · dsimp only
        apply updateFirstBy_map_eq
        intro a
        rfl
    · rfl
  · intro s oid c
    unfold Portal.render_supervisor_review_send_back
    split
    · dsimp only
      apply updateFirstBy_map_eq
      intro a
      rfl
    · rfl

/-- The offer the create witness records: percentage 50 of the sample loan. -/
def c6Offer : Portal.Offer :=
  { offer_id := "OFFER_" ++ Portal.pad3 2
    loan_id := "LOAN_001"
    agent_id := "agent_001"
    settlement_percentage := 50
    settlement_amount := sampleLoan.current_balance * (50 / 100)
    due_date := 45
    status := Portal.OfferStatus.draft
    justification_notes := ""
    created_date := 0 }

/-- Witness for C6 on the concrete 50-percent offer. -/
theorem C6_settlement_terms_locked_witness :
    c6Offer.settlement_amount
        = c6Offer.settlement_percentage / 100 * sampleLoan.current_balance
      ∧ c6Offer.settlement_percentage = 50 :=
  C6_settlement_terms_locked.1 draftState sampleLoan "agent_001" 50 45 0 ""
    c6Offer rfl

/-! ## C10 -/

theorem find?_append_some {α : Type} (p : α → Bool) (a : α) :
    ∀ l B : List α, l.find? p = some a → (l ++ B).find? p = some a := by
  intro l B h
  induction l with
  | nil => simp [List.find?] at h
  | cons x rest ih =>
    by_cases hx : p x = true
    · rw [List.find?_cons_of_pos _ hx] at h
      rw [List.cons_append, List.find?_cons_of_pos _ hx]
      exact h
    · rw [List.find?_cons_of_neg _ hx] at h
      rw [List.cons_append, List.find?_cons_of_neg _ hx]
      exact ih h

/-- C10: recording any customer response (Accepted, Rejected or Counter)
against an offer mutates only that offer's `status` and `response_date`;
its settlement percentage and amount, due date, creation date,
justification notes, agent, loan, sent date and supervisor comments are all
unchanged (the record-update form of the conclusion fixes every other field
to its old value). -/
theorem C10_response_frame :
    ∀ (s : Portal.SessionState) (oid reason anotes aid : String)
      (rt : Portal.ResponseType) (cpct : ℚ) (cdue now : Int)
      (offer : Portal.Offer) (loan : Portal.Loan),
    Portal.find_offer s oid = some offer →
    Portal.get_loan_by_id s offer.loan_id = some loan →
    offer.status = Portal.OfferStatus.sent →
    Portal.find_offer
      (Portal.render_customer_response s oid rt reason cpct cdue anotes aid
        now).state oid
      = some { offer with status := Portal.response_status rt
                          response_date := some now } := by
  intro s oid reason anotes aid rt cpct cdue now offer loan hf hl hsent
  unfold Portal.render_customer_response
  simp only [hf, hl]
  have hff : s.offers.find? (fun o => o.offer_id == oid) = some offer := hf
  have hd := find?_updateFirstBy (fun o : Portal.Offer => o.offer_id == oid)
    (fun o => { o with status := Portal.response_status rt
                       response_date := some now })
    (fun a h => h) s.offers
  rcases hd with hd | hd
  · rw [hff] at hd
    exact absurd hd (by simp)
  · rw [hff] at hd
    cases rt with
    | accepted =>
      show (Portal.updateFirstBy _ _ s.offers).find? _ = _
      exact hd
    | rejected =>
      show (Portal.updateFirstBy _ _ s.offers).find? _ = _
      exact hd
    | counter =>
      show (Portal.updateFirstBy _ _ s.offers
        ++ [_]).find? _ = _
      exact find?_append_some _ _ _ _ hd

/-- A sent offer and the session holding it. -/
def sentOffer : Portal.Offer :=
  { offer_id := "OFFER_001"
    loan_id := "LOAN_001"
    agent_id := "agent_001"
    settlement_percentage := 50
    settlement_amount := 5000
    due_date := 45
    status := Portal.OfferStatus.sent
    justification_notes := ""
    created_date := 0
    sent_date := some 1 }

def sentState : Portal.SessionState :=
  { loans := [sampleLoan]
    offers := [sentOffer]
    communications := []
    responses := [] }

/-- Witness for C10: accepting the concrete sent offer changes only its
status and response date. -/
theorem C10_response_frame_witness :
    Portal.find_offer
      (Portal.render_customer_response sentState "OFFER_001"
        Portal.ResponseType.accepted "" 70 30 "" "agent_001" 9).state "OFFER_001"
      = some { sentOffer with
          status := Portal.response_status Portal.ResponseType.accepted
          response_date := some 9 } :=
  C10_response_frame sentState "OFFER_001" "" "" "agent_001"
    Portal.ResponseType.accepted 70 30 9 sentOffer sampleLoan rfl rfl rfl

/-! ## C5 -/

/-- An offer awaiting supervisor approval, and the session holding it. -/
def pendingOffer : Portal.Offer :=
  { offer_id := "OFFER_001"
    loan_id := "LOAN_001"
    agent_id := "agent_001"
    settlement_percentage := 80
    settlement_amount := 8000
    due_date := 45
    status := Portal.OfferStatus.pendingApproval
    justification_notes := "Customer hardship"
    created_date := 0 }

def pendingState : Portal.SessionState :=
  { loans := [sampleLoan]
    offers := [pendingOffer]
    communications := []
    responses := [] }

/-- C5 counterexample: in the first portal variant the supervisor reject
button takes no comment at all, and with the comment thus empty the
rejection still succeeds - the pending offer moves to RejectedBySupervisor
with a canned comment - instead of failing with a missing-comment error and
remaining in PendingApproval. -/
theorem C5_counterexample :
    ((PortalV1.render_supervisor_review_reject_v1 pendingState
        "OFFER_001").offers.map Portal.Offer.status)
      = [Portal.OfferStatus.rejectedBySupervisor]
    ∧ ((PortalV1.render_supervisor_review_reject_v1 pendingState
        "OFFER_001").offers.map Portal.Offer.supervisor_comments)
      = ["Rejected by supervisor - outside policy guidelines"] :=
  ⟨rfl, rfl⟩

/-- C5 amended: in the third portal variant (the one with a rejection
modal), rejecting a pending offer with an empty (whitespace-only) comment
fails with the missing-comment error and leaves the session - hence the
offer's PendingApproval status - unchanged, while a non-empty comment moves
the offer to RejectedBySupervisor with the comment recorded; in the first
portal variant the reject button takes no comment and immediately moves the
offer to RejectedBySupervisor with a canned supervisor comment. -/
theorem C5_amended :
    (∀ (s : Portal.SessionState) (oid c : String),
      (Portal.pending_offers s).any (fun o => o.offer_id == oid) = true →
      ((Portal.pyStrip c).isEmpty = true →
        (Portal.render_supervisor_review_reject s oid c).error
            = some Portal.ReviewError.missingComment
        ∧ (Portal.render_supervisor_review_reject s oid c).state = s)
      ∧ ((Portal.pyStrip c).isEmpty = false →
        (Portal.render_supervisor_review_reject s oid c).error = none
        ∧ (Portal.render_supervisor_review_reject s oid c).state.offers
            = Portal.updateFirstBy (fun o => o.offer_id == oid)
                (fun o =>
                  { o with
                    status := Portal.OfferStatus.rejectedBySupervisor
                    supervisor_comments := c })
                s.offers))
    ∧ (∀ (s : Portal.SessionState) (oid : String),
      (Portal.pending_offers s).any (fun o => o.offer_id == oid) = true →
      (PortalV1.render_supervisor_review_reject_v1 s oid).offers
        = Portal.updateFirstBy (fun o => o.offer_id == oid)
            (fun o =>
              { o with
                status := Portal.OfferStatus.rejectedBySupervisor
                supervisor_comments :=
                  "Rejected by supervisor - outside policy guidelines" })
            s.offers) := by
  constructor
  · intro s oid c h
    constructor
    · intro hc
      unfold Portal.render_supervisor_review_reject
      rw [if_pos h, if_pos hc]
      exact ⟨rfl, rfl⟩
    · intro hc
      unfold Portal.render_supervisor_review_reject
      rw [if_pos h, if_neg (by simp [hc])]
      exact ⟨rfl, rfl⟩
  · intro s oid h
    unfold PortalV1.render_supervisor_review_reject_v1
    rw [if_pos h]

/-- Witness for C5 amended: empty comment on the concrete pending offer is
refused and nothing changes. -/
theorem C5_amended_witness :
    (Portal.render_supervisor_review_reject pendingState "OFFER_001" "").error
        = some Portal.ReviewError.missingComment
      ∧ (Portal.render_supervisor_review_reject pendingState "OFFER_001" "").state
        = pendingState :=
  (C5_amended.1 pendingState "OFFER_001" "" (by decide)).1 (by decide)

/-! ## C7 -/

/-- A pending-approval offer of the enhanced (second) portal variant. -/
def ePendingOffer : Enhanced.Offer :=
  { offer_id := "OFFER_001"
    loan_id := "LOAN_001"
    agent_id := "agent_001"
    settlement_percentage := 80
    settlement_amount := 8000
    due_date := 45
    status := Enhanced.OfferStatus.pendingApproval
    justification_notes := "Customer hardship"
    created_date := 0 }

/-- C7 counterexample: in the enhanced portal variant's supervisor panel,
Approve on a PendingApproval offer transitions it directly to Sent
(stamping sent_date), not to Draft. -/
theorem C7_counterexample :
    ((Enhanced.render_supervisor_panel_approve [ePendingOffer] "OFFER_001"
        7).map Enhanced.Offer.status)
      = [Enhanced.OfferStatus.sent]
    ∧ ((Enhanced.render_supervisor_panel_approve [ePendingOffer] "OFFER_001"
        7).map Enhanced.Offer.sent_date)
      = [some 7] :=
  ⟨rfl, rfl⟩

/-- C7 amended: the two `render_supervisor_review` variants transition a
pending offer to Draft on Approve (not directly to Sent), while the
enhanced variant's `render_supervisor_panel` transitions it directly to
Sent and sets `sent_date`. -/
theorem C7_amended :
    (∀ (s : Portal.SessionState) (oid : String),
      (Portal.pending_offers s).any (fun o => o.offer_id == oid) = true →
      (Portal.render_supervisor_review_approve s oid).offers
        = Portal.updateFirstBy (fun o => o.offer_id == oid)
            (fun o => { o with status := Portal.OfferStatus.draft })
            s.offers)
    ∧ (∀ (offers : List Enhanced.Offer) (oid : String) (now : Int),
      ((offers.filter
          (fun o => decide (o.status = Enhanced.OfferStatus.pendingApproval))).any
        (fun o => o.offer_id == oid)) = true →
      Enhanced.render_supervisor_panel_approve offers oid now
        = Portal.updateFirstBy (fun o => o.offer_id == oid)
            (fun o =>
              { o with
                status := Enhanced.OfferStatus.sent
                sent_date := some now })
            offers) := by
  constructor
  · intro s oid h
    unfold Portal.render_supervisor_review_approve
    rw [if_pos h]
  · intro offers oid now h
    unfold Enhanced.render_supervisor_panel_approve
    rw [if_pos h]

/-- Witness for C7 amended: approving the concrete pending offer yields a
Draft offer. -/
theorem C7_amended_witness :
    (Portal.render_supervisor_review_approve pendingState "OFFER_001").offers
      = Portal.updateFirstBy (fun o => o.offer_id == "OFFER_001")
          (fun o => { o with status := Portal.OfferStatus.draft })
          pendingState.offers :=
  C7_amended.1 pendingState "OFFER_001" (by decide)

/-! ## C1 -/

/-- An offer in the terminal state Accepted, and the session holding it. -/
def acceptedOffer : Portal.Offer :=
  { offer_id := "OFFER_001"
    loan_id := "LOAN_001"
    agent_id := "agent_001"
    settlement_percentage := 50
    settlement_amount := 5000
    due_date := 45
    status := Portal.OfferStatus.accepted
    justification_notes := ""
    created_date := 0
    sent_date := some 1
    response_date := some 2 }

def acceptedState : Portal.SessionState :=
  { loans := [sampleLoan]
    offers := [acceptedOffer]
    communications := []
    responses := [] }

/-- C1 counterexample: sending an offer that is already in the terminal
state Accepted does not fail - there is no invalid-transition error
anywhere in the code - and it is not side-effect free: the offer is mutated
back to Sent and a fresh Communication record is appended. -/
theorem C1_counterexample :
    (Portal.render_send_offer acceptedState "OFFER_001"
        Portal.CommunicationChannel.sms "msg" 5).error = none
    ∧ ((Portal.render_send_offer acceptedState "OFFER_001"
        Portal.CommunicationChannel.sms "msg" 5).state.offers.map
          Portal.Offer.status)
      = [Portal.OfferStatus.sent]
    ∧ (Portal.render_send_offer acceptedState "OFFER_001"
        Portal.CommunicationChannel.sms "msg" 5).state.communications.length
      = 1 :=
  ⟨rfl, rfl, rfl⟩

/-- C1 amended: the send page's only guard is on PendingApproval; sending
an offer in any other state - including the terminal states Accepted,
Rejected and RejectedBySupervisor - succeeds, mutating the offer to Sent
with a fresh `sent_date` and appending exactly one Communication record
(the responses list is untouched; no invalid-transition error, no
Cancel/Expire action and no audit-event store exist in the code, the
Expired/Cancelled statuses being unused enum values of the enhanced
variant only). -/
theorem C1_amended :
    ∀ (s : Portal.SessionState) (oid m : String)
      (ch : Portal.CommunicationChannel) (now : Int) (offer : Portal.Offer),
    Portal.find_offer s oid = some offer →
    offer.status ≠ Portal.OfferStatus.pendingApproval →
    (Portal.render_send_offer s oid ch m now).error = none
    ∧ (Portal.render_send_offer s oid ch m now).state.offers
        = Portal.updateFirstBy (fun o => o.offer_id == oid)
            (fun o =>
              { o with
                status := Portal.OfferStatus.sent
                sent_date := some now })
            s.offers
    ∧ (Portal.render_send_offer s oid ch m now).state.communications
        = s.communications
          ++ [{ communication_id :=
                  "COMM_" ++ Portal.pad3 (s.communications.length + 1)
                loan_id := offer.loan_id
                offer_id := offer.offer_id
                channel := ch
                message_content := m
                sent_date := now
                delivery_status := "Delivered" }]
    ∧ (Portal.render_send_offer s oid ch m now).state.responses
        = s.responses := by
  intro s oid m ch now offer hf hp
  unfold Portal.render_send_offer
  simp only [hf]
  rw [if_neg hp]
  exact ⟨rfl, rfl, rfl, rfl⟩

/-- Witness for C1 amended on the concrete accepted offer. -/
theorem C1_amended_witness :
    (Portal.render_send_offer acceptedState "OFFER_001"
        Portal.CommunicationChannel.email "msg" 5).error = none
    ∧ (Portal.render_send_offer acceptedState "OFFER_001"
        Portal.CommunicationChannel.email "msg" 5).state.offers
        = Portal.updateFirstBy (fun o => o.offer_id == "OFFER_001")
            (fun o =>
              { o with
                status := Portal.OfferStatus.sent
                sent_date := some 5 })
            acceptedState.offers
    ∧ (Portal.render_send_offer acceptedState "OFFER_001"
        Portal.CommunicationChannel.email "msg" 5).state.communications
        = acceptedState.communications
          ++ [{ communication_id :=
                  "COMM_" ++ Portal.pad3 (acceptedState.communications.length + 1)
                loan_id := acceptedOffer.loan_id
                offer_id := acceptedOffer.offer_id
                channel := Portal.CommunicationChannel.email
                message_content := "msg"
                sent_date := 5
                delivery_status := "Delivered" }]
    ∧ (Portal.render_send_offer acceptedState "OFFER_001"
        Portal.CommunicationChannel.email "msg" 5).state.responses
        = acceptedState.responses :=
  C1_amended acceptedState "OFFER_001" "msg" Portal.CommunicationChannel.email
    5 acceptedOffer rfl (by decide)

/-! ## C2 -/

/-- C2 counterexample: a Counter response of 70 percent against the sent
offer on the unsecured sample loan (policy band 35-65, so 70 is outside
policy) auto-creates the new offer in Draft, not PendingApproval as the
claim requires; no parent-offer field exists to carry the link. -/
theorem C2_counterexample :
    (((Portal.render_customer_response sentState "OFFER_001"
        Portal.ResponseType.counter "" 70 30 "" "agent_001" 9).state.offers).map
        Portal.Offer.status)
      = [Portal.OfferStatus.counterOffer, Portal.OfferStatus.draft]
    ∧ Portal.is_within_policy sampleLoan 70 = false :=
  ⟨rfl, rfl⟩

/-- C2 amended: recording a Counter response against a Sent offer sets the
offer's `response_date`, moves it to CounterOffer, and appends exactly one
new offer carrying the counter percentage, the amount recomputed from the
loan balance, and the counter due date - always with initial state Draft,
with no policy check on the counter terms; the only link to the responded
offer is its percentage quoted inside the new offer's justification notes
(the `Offer` record has no `parent_offer_id` field). -/
theorem C2_amended :
    ∀ (s : Portal.SessionState) (oid anotes aid : String)
      (cpct : ℚ) (cdue now : Int) (offer : Portal.Offer) (loan : Portal.Loan),
    Portal.find_offer s oid = some offer →
    Portal.get_loan_by_id s offer.loan_id = some loan →
    offer.status = Portal.OfferStatus.sent →
    (Portal.render_customer_response s oid Portal.ResponseType.counter ""
        cpct cdue anotes aid now).error = none
    ∧ (Portal.render_customer_response s oid Portal.ResponseType.counter ""
        cpct cdue anotes aid now).state.offers
      = Portal.updateFirstBy (fun o => o.offer_id == oid)
          (fun o =>
            { o with
              status := Portal.OfferStatus.counterOffer
              response_date := some now })
          s.offers
        ++ [{ offer_id := "OFFER_" ++ Portal.pad3 (s.offers.length + 1)
              loan_id := loan.loan_id
              agent_id := aid
              settlement_percentage := cpct
              settlement_amount := loan.current_balance * (cpct / 100)
              due_date := cdue
              status := Portal.OfferStatus.draft
              justification_notes :=
                "Counter-offer from customer. Original offer: "
                  ++ toString offer.settlement_percentage ++ "%"
              created_date := now }] := by
  intro s oid anotes aid cpct cdue now offer loan hf hl hsent
  unfold Portal.render_customer_response
  simp only [hf, hl]
  refine ⟨by trivial, ?_⟩
  rw [updateFirstBy_length]
  rfl

/-- Witness for C2 amended on the concrete sent offer, counter at 70. -/
theorem C2_amended_witness :
    (Portal.render_customer_response sentState "OFFER_001"
        Portal.ResponseType.counter "" 70 30 "notes" "agent_001" 9).error = none
    ∧ (Portal.render_customer_response sentState "OFFER_001"
        Portal.ResponseType.counter "" 70 30 "notes" "agent_001" 9).state.offers
      = Portal.updateFirstBy (fun o => o.offer_id == "OFFER_001")
          (fun o =>
            { o with
              status := Portal.OfferStatus.counterOffer
              response_date := some 9 })
          sentState.offers
        ++ [{ offer_id := "OFFER_" ++ Portal.pad3 (sentState.offers.length + 1)
              loan_id := sampleLoan.loan_id
              agent_id := "agent_001"
              settlement_percentage := 70
              settlement_amount := sampleLoan.current_balance * (70 / 100)
              due_date := 30
              status := Portal.OfferStatus.draft
              justification_notes :=
                "Counter-offer from customer. Original offer: "
                  ++ toString sentOffer.settlement_percentage ++ "%"
              created_date := 9 }] :=
  C2_amended sentState "OFFER_001" "notes" "agent_001" 70 30 9 sentOffer
    sampleLoan rfl rfl rfl

/-! ## C4 -/

/-- C4 counterexample: approving the concrete pending offer is a successful
transition (PendingApproval to Draft), yet nothing is appended anywhere:
the code has no audit-event store, and neither the communications nor the
responses list receives a record. -/
theorem C4_counterexample :
    ((Portal.render_supervisor_review_approve pendingState
        "OFFER_001").offers.map Portal.Offer.status)
      = [Portal.OfferStatus.draft]
    ∧ (Portal.render_supervisor_review_approve pendingState
        "OFFER_001").communications = pendingState.communications
    ∧ (Portal.render_supervisor_review_approve pendingState
        "OFFER_001").responses = pendingState.responses :=
  ⟨rfl, rfl, rfl⟩

/-- C4 amended: no audit-event type exists; the only persisted event
records are Communication (appended exactly once by a successful Send,
never removed or modified) and CustomerResponse (appended exactly once by
every completed RecordResponse, never removed or modified); a failed send
leaves the session unchanged; supervisor approve/reject/send-back and
offer creation append no event record at all. -/
theorem C4_amended :
    (∀ (s : Portal.SessionState) (oid m : String)
      (ch : Portal.CommunicationChannel) (now : Int),
      ((Portal.render_send_offer s oid ch m now).error = none →
        ∃ c, (Portal.render_send_offer s oid ch m now).state.communications
          = s.communications ++ [c])
      ∧ ((Portal.render_send_offer s oid ch m now).error ≠ none →
        (Portal.render_send_offer s oid ch m now).state = s)
      ∧ (Portal.render_send_offer s oid ch m now).state.responses
          = s.responses)
    ∧ (∀ (s : Portal.SessionState) (oid reason anotes aid : String)
      (rt : Portal.ResponseType) (cpct : ℚ) (cdue now : Int),
      ((Portal.render_customer_response s oid rt reason cpct cdue anotes aid
          now).error = none →
        ∃ r, (Portal.render_customer_response s oid rt reason cpct cdue anotes
            aid now).state.responses
          = s.responses ++ [r])
      ∧ (Portal.render_customer_response s oid rt reason cpct cdue anotes aid
          now).state.communications = s.communications)
    ∧ (∀ (s : Portal.SessionState) (oid : String),
      (Portal.render_supervisor_review_approve s oid).communications
          = s.communications
      ∧ (Portal.render_supervisor_review_approve s oid).responses
          = s.responses)
    ∧ (∀ (s : Portal.SessionState) (oid c : String),
      (Portal.render_supervisor_review_reject s oid c).state.communications
          = s.communications
      ∧ (Portal.render_supervisor_review_reject s oid c).state.responses
          = s.responses)
    ∧ (∀ (s : Portal.SessionState) (oid c : String),
      (Portal.render_supervisor_review_send_back s oid c).communications
          = s.communications
      ∧ (Portal.render_supervisor_review_send_back s oid c).responses
          = s.responses)
    ∧ (∀ (s : Portal.SessionState) (loan : Portal.Loan) (agentId : String)
      (pct : ℚ) (due_date today : Int) (notes : String),
      (Portal.render_create_offer s loan agentId pct due_date notes
          today).state.communications = s.communications
      ∧ (Portal.render_create_offer s loan agentId pct due_date notes
          today).state.responses = s.responses) := by
  refine ⟨?_, ?_, ?_, ?_, ?_, ?_⟩
  · intro s oid m ch now
    refine ⟨?_, ?_, ?_⟩
    · intro h
      rcases hf : Portal.find_offer s oid with _ | offer
      · unfold Portal.render_send_offer at h
        simp [hf] at h
      · by_cases hp : offer.status = Portal.OfferStatus.pendingApproval
        · unfold Portal.render_send_offer at h
          simp [hf, hp] at h
        · unfold Portal.render_send_offer
          simp only [hf, if_neg hp]
          exact ⟨_, rfl⟩
    · intro h
      rcases hf : Portal.find_offer s oid with _ | offer
      · unfold Portal.render_send_offer
        simp only [hf]
      · by_cases hp : offer.status = Portal.OfferStatus.pendingApproval
        · unfold Portal.render_send_offer
          simp only [hf, if_pos hp]
        · exfalso
          apply h
          unfold Portal.render_send_offer
          simp only [hf, if_neg hp]
    · rcases hf : Portal.find_offer s oid with _ | offer
      · unfold Portal.render_send_offer
        simp only [hf]
      · unfold Portal.render_send_offer
        simp only [hf]
        split <;> rfl
  · intro s oid reason anotes aid rt cpct cdue now
    refine ⟨?_, ?_⟩
    · intro h
      rcases hf : Portal.find_offer s oid with _ | offer
      · unfold Portal.render_customer_response at h
        simp [hf] at h
      · rcases hl : Portal.get_loan_by_id s offer.loan_id with _ | loan
        · unfold Portal.render_customer_response at h
          simp [hf, hl] at h
        · unfold Portal.render_customer_response
          simp only [hf, hl]
          cases rt with
          | accepted => exact ⟨_, rfl⟩
          | rejected => exact ⟨_, rfl⟩
          | counter => exact ⟨_, rfl⟩
    · rcases hf : Portal.find_offer s oid with _ | offer
      · unfold Portal.render_customer_response
        simp only [hf]
      · rcases hl : Portal.get_loan_by_id s offer.loan_id with _ | loan
        · unfold Portal.render_customer_response
          simp only [hf, hl]
        · unfold Portal.render_customer_response
          simp only [hf, hl]
          cases rt <;> rfl
  · intro s oid
    unfold Portal.render_supervisor_review_approve
    split
    · exact ⟨rfl, rfl⟩
    · exact ⟨rfl, rfl⟩
  · intro s oid c
    unfold Portal.render_supervisor_review_reject
    split
    · split
      · exact ⟨rfl, rfl⟩
      · exact ⟨rfl, rfl⟩
    · exact ⟨rfl, rfl⟩
  · intro s oid c
    unfold Portal.render_supervisor_review_send_back
    split
    · exact ⟨rfl, rfl⟩
    · exact ⟨rfl, rfl⟩
  · intro s loan agentId pct due_date today notes
    simp only [Portal.render_create_offer]
    by_cases hc :
        (Portal.create_offer_errors loan pct due_date today notes).isEmpty = true
    · simp [hc]
    · simp [hc]

/-- Witness for C4 amended: a send blocked by the PendingApproval guard is
a rejected action and leaves the session exactly as it was. -/
theorem C4_amended_witness :
    (Portal.render_send_offer pendingState "OFFER_001"
        Portal.CommunicationChannel.sms "m" 5).state = pendingState :=
  ((C4_amended.1 pendingState "OFFER_001" "m"
      Portal.CommunicationChannel.sms 5).2.1) (by decide)
